import Mathlib

/-
Verification of the peak-type labeling module (src/peak_type_labeling.py).

The module classifies timestamps as Peak or Off-Peak per the NERC 5x16
convention: a NERC holiday calendar (six rules), a single-timestamp
classifier, and a row-wise annotator over a tabular dataset.

Dates are embedded by their proleptic Gregorian fields (year, month, day)
exactly as Python datetime stores them; toOrdinal matches Python
date.toordinal (0001-01-01 has ordinal 1), and pyWeekday matches Python
datetime.weekday (Monday = 0 ... Sunday = 6).  A timestamp is a date plus
hour, minute, second and microsecond; its key is the microsecond count
from the proleptic epoch, so comparing keys is comparing instants, and a
resolved holiday is a midnight instant (key divisible by usPerDay).
-/

/-- Leap-year rule of the Gregorian calendar, as Python datetime uses it. -/
def isLeapYear (y : Nat) : Bool :=
  decide (y % 4 = 0 ∧ (y % 100 ≠ 0 ∨ y % 400 = 0))

/-- Number of days of month m (1..12) in year y, as Python datetime. -/
def daysInMonth (y m : Nat) : Nat :=
  if m = 2 then (if isLeapYear y then 29 else 28)
  else if m = 4 ∨ m = 6 ∨ m = 9 ∨ m = 11 then 30
  else 31

/-- One extra day in and after February of a leap year. -/
def leapDay (y : Nat) : Nat :=
  if isLeapYear y then 1 else 0

/-- Days in the months of year y strictly before month m (1..12). -/
def daysBeforeMonth (y m : Nat) : Nat :=
  let f : Nat := leapDay y
  match m with
  | 1 => 0
  | 2 => 31
  | 3 => 59 + f
  | 4 => 90 + f
  | 5 => 120 + f
  | 6 => 151 + f
  | 7 => 181 + f
  | 8 => 212 + f
  | 9 => 243 + f
  | 10 => 273 + f
  | 11 => 304 + f
  | _ => 334 + f

/-- Days before January 1 of year y in the proleptic Gregorian calendar. -/
def daysBeforeYear (y : Nat) : Nat :=
  365 * (y - 1) + (y - 1) / 4 - (y - 1) / 100 + (y - 1) / 400

/-- Proleptic Gregorian ordinal of the date (y, m, d), as Python
date.toordinal: 0001-01-01 has ordinal 1. -/
def toOrdinal (y m d : Nat) : Nat :=
  daysBeforeYear y + daysBeforeMonth y m + d

/-- Weekday of the date with the given ordinal, as Python datetime.weekday:
Monday = 0 ... Sunday = 6 (ordinal 1, 0001-01-01, is a Monday). -/
def pyWeekday (ord : Nat) : Nat :=
  (ord + 6) % 7

/-- A Python datetime value: naive timestamp fields. -/
structure PyDateTime where
  year : Nat
  month : Nat
  day : Nat
  hour : Nat
  minute : Nat
  second : Nat
  microsecond : Nat
deriving DecidableEq, Repr

/-- Field ranges a constructed Python datetime always satisfies
(MINYEAR = 1, MAXYEAR = 9999). -/
def PyDateTime.Valid (dt : PyDateTime) : Prop :=
  1 ≤ dt.year ∧ dt.year ≤ 9999 ∧ 1 ≤ dt.month ∧ dt.month ≤ 12 ∧
  1 ≤ dt.day ∧ dt.day ≤ daysInMonth dt.year dt.month ∧
  dt.hour ≤ 23 ∧ dt.minute ≤ 59 ∧ dt.second ≤ 59 ∧ dt.microsecond ≤ 999999

instance (dt : PyDateTime) : Decidable dt.Valid := by
  unfold PyDateTime.Valid; exact inferInstance

/-- Date ordinal of a timestamp. -/
def PyDateTime.toOrd (dt : PyDateTime) : Nat :=
  toOrdinal dt.year dt.month dt.day

/-- Microseconds elapsed since midnight of the timestamp's day. -/
def PyDateTime.tod (dt : PyDateTime) : Nat :=
  ((dt.hour * 60 + dt.minute) * 60 + dt.second) * 1000000 + dt.microsecond

/-- Python datetime.weekday of the timestamp. -/
def PyDateTime.weekday (dt : PyDateTime) : Nat :=
  pyWeekday dt.toOrd

/-- Microseconds in one day. -/
def usPerDay : Nat := 86400000000

/-- Total-order key of an instant: microseconds from the proleptic epoch. -/
def PyDateTime.key (dt : PyDateTime) : Nat :=
  dt.toOrd * usPerDay + dt.tod

/-- Python datetime.replace(year = y): same month, day and time of day;
raises (none) when the resulting date does not exist. -/
def replaceYear (dt : PyDateTime) (y : Nat) : Option PyDateTime :=
  if 1 ≤ y ∧ y ≤ 9999 ∧ dt.day ≤ daysInMonth y dt.month then
    some { dt with year := y }
  else
    none

/-- Dateutil relativedelta weekday t with n = -1: the latest date on or
before the given ordinal whose weekday is t. -/
def rollBackWeekday (t ord : Nat) : Nat :=
  ord - (pyWeekday ord + 7 - t) % 7

/-- Dateutil relativedelta weekday t with n = +1 (or a plain integer
weekday): the earliest date on or after the given ordinal whose weekday
is t. -/
def rollForwardWeekday (t ord : Nat) : Nat :=
  ord + (t + 7 - pyWeekday ord) % 7

/-- Observance nearest_workday from pandas.tseries.holiday: Saturday moves
to the preceding Friday, Sunday to the following Monday. -/
def nearest_workday (ord : Nat) : Nat :=
  if pyWeekday ord = 5 then ord - 1
  else if pyWeekday ord = 6 then ord + 1
  else ord

/-- Rule: New Years Day, January 1 observed on the nearest workday. -/
def newYearsDay (y : Nat) : Nat :=
  nearest_workday (toOrdinal y 1 1)

/-- Rule: Memorial Day, May 31 rolled back to the last Monday (MO(-1)). -/
def memorialDay (y : Nat) : Nat :=
  rollBackWeekday 0 (toOrdinal y 5 31)

/-- Rule: Independence Day, July 4 observed on the nearest workday. -/
def independenceDay (y : Nat) : Nat :=
  nearest_workday (toOrdinal y 7 4)

/-- Rule: Labor Day, September 1 rolled forward to the first Monday
(MO(1)). -/
def laborDay (y : Nat) : Nat :=
  rollForwardWeekday 0 (toOrdinal y 9 1)

/-- Rule: Thanksgiving, November 1 rolled forward to a Thursday
(weekday = 3) and then three weeks later. -/
def thanksgiving (y : Nat) : Nat :=
  rollForwardWeekday 3 (toOrdinal y 11 1) + 21

/-- Rule: Christmas Day, December 25 observed on the nearest workday. -/
def christmasDay (y : Nat) : Nat :=
  nearest_workday (toOrdinal y 12 25)

/-- Resolved dates (ordinals) of the six NERC holiday rules for year y,
in rule order. -/
def nercResolvedFor (y : Nat) : List Nat :=
  [newYearsDay y, memorialDay y, independenceDay y, laborDay y,
   thanksgiving y, christmasDay y]

/-- Resolved holiday ordinals over a list of reference years. -/
def holidayOrdinalsForYears : List Nat → List Nat
  | [] => []
  | y :: ys => nercResolvedFor y ++ holidayOrdinalsForYears ys

/-- Consecutive years a..b inclusive. -/
def yearsList (a b : Nat) : List Nat :=
  (List.range (b + 1 - a)).map (a + ·)

/-- NERCHolidayCalendar.holidays(start, end) from pandas: resolve every
rule for reference years start.year - 1 .. end.year + 1, and keep the
midnight instants lying within [start, end] inclusive. -/
def calHolidays (s e : PyDateTime) : List Nat :=
  ((holidayOrdinalsForYears (yearsList (s.year - 1) (e.year + 1))).map
      (fun d => d * usPerDay)).filter
    (fun k => decide (s.key ≤ k) && decide (k ≤ e.key))

/-- The function is_nerc_holiday: query the calendar between
date.replace(year = year - 1) and date.replace(year = year + 1), and test
membership of the queried instant itself in the returned index; none
models the ValueError a failing replace raises. -/
def is_nerc_holiday (dt : PyDateTime) : Option Bool :=
  match replaceYear dt (dt.year - 1), replaceYear dt (dt.year + 1) with
  | some s, some e => some ((calHolidays s e).contains dt.key)
  | _, _ => none

/-- Result of is_5x16_peak: a bool, or its text rendering. -/
inductive PeakResult where
  | b (v : Bool)
  | s (v : String)
deriving DecidableEq, Repr

/-- The function is_5x16_peak: Off-Peak when the holiday test is true, the
weekday is 5 or more, or the hour lies outside 8..23; Peak otherwise;
rendered as a string when return_text is true. -/
def is_5x16_peak (dt : PyDateTime) (return_text : Bool) : Option PeakResult :=
  match is_nerc_holiday dt with
  | none => none
  | some h =>
    if h || decide (5 ≤ dt.weekday) ||
        !(decide (8 ≤ dt.hour) && decide (dt.hour ≤ 23)) then
      some (if return_text then .s "Off-Peak" else .b false)
    else
      some (if return_text then .s "Peak" else .b true)

/-- One cell of a pandas DataFrame, as this module uses them. -/
inductive Cell where
  | dt (v : PyDateTime)
  | boolean (v : Bool)
  | str (v : String)
  | int (v : Int)
deriving DecidableEq, Repr

/-- A pandas DataFrame: named columns of cells, in column order. -/
structure DataFrame where
  cols : List (String × List Cell)
deriving DecidableEq, Repr

/-- Errors the annotator can surface: KeyError for a missing column,
a type error for a non-datetime cell, ValueError from datetime.replace. -/
inductive PdError where
  | keyError
  | typeError
  | valueError
deriving DecidableEq, Repr

/-- Column lookup df[name]: the first column with the given name. -/
def lookupCol (cs : List (String × List Cell)) (n : String) : Option (List Cell) :=
  (cs.find? (fun c => c.1 == n)).map (fun c => c.2)

/-- Column assignment df[name] = v: overwrite the column in place when the
name exists, append a new column at the end otherwise. -/
def setCol : List (String × List Cell) → String → List Cell → List (String × List Cell)
  | [], n, v => [(n, v)]
  | c :: cs, n, v => if c.1 = n then (n, v) :: cs else c :: setCol cs n v

/-- Classification of one cell by is_5x16_peak, as the apply lambda does:
a non-datetime cell raises, and a raising classification propagates. -/
def classifyCell (return_text : Bool) : Cell → Except PdError Cell
  | .dt d =>
    match is_5x16_peak d return_text with
    | some (.b v) => .ok (.boolean v)
    | some (.s v) => .ok (.str v)
    | none => .error .valueError
  | _ => .error .typeError

/-- Series.apply over a column: each cell in order, first error wins. -/
def mapCells (f : Cell → Except PdError Cell) : List Cell → Except PdError (List Cell)
  | [] => .ok []
  | c :: cs =>
    match f c, mapCells f cs with
    | .ok c2, .ok cs2 => .ok (c2 :: cs2)
    | .error e, _ => .error e
    | .ok _, .error e => .error e

/-- The function apply_peak_offpeak: classify every cell of the named
column and write the results into the column Peak_OffPeak. -/
def apply_peak_offpeak (df : DataFrame) (datetime_column : String)
    (return_text : Bool) : Except PdError DataFrame :=
  match lookupCol df.cols datetime_column with
  | none => .error .keyError
  | some vals =>
    match mapCells (classifyCell return_text) vals with
    | .error e => .error e
    | .ok newVals => .ok ⟨setCol df.cols "Peak_OffPeak" newVals⟩

/-- Holiday test exactly as the specification sentence words it: query the
calendar with inclusive full-year bounds, January 1 of year - 1 through
December 31 of year + 1, and test membership of the timestamp's date
(its midnight instant). -/
def specDateHolidayCheck (dt : PyDateTime) : Bool :=
  (calHolidays ⟨dt.year - 1, 1, 1, 0, 0, 0, 0⟩
      ⟨dt.year + 1, 12, 31, 0, 0, 0, 0⟩).contains (dt.toOrd * usPerDay)

/-- Holiday membership of the full timestamp, queried with the
specification's full-year bounds; compared below with the code's
replace-year bounds. -/
def fullYearWindowCheck (dt : PyDateTime) : Bool :=
  (calHolidays ⟨dt.year - 1, 1, 1, 0, 0, 0, 0⟩
      ⟨dt.year + 1, 12, 31, 0, 0, 0, 0⟩).contains dt.key

/-! Helper lemmas: calendar arithmetic. -/

theorem leapDay_le (y : Nat) : leapDay y ≤ 1 := by
  unfold leapDay; split <;> omega

theorem daysBeforeYear_succ_bounds (y : Nat) (hy : 1 ≤ y) :
    daysBeforeYear y + 365 ≤ daysBeforeYear (y + 1) ∧
    daysBeforeYear (y + 1) ≤ daysBeforeYear y + 366 := by
  unfold daysBeforeYear
  omega

theorem daysBeforeMonth_diff (y y2 m : Nat) (hm2 : m ≤ 12) :
    daysBeforeMonth y m ≤ daysBeforeMonth y2 m + 1 := by
  have h1 := leapDay_le y
  have h2 := leapDay_le y2
  unfold daysBeforeMonth
  interval_cases m <;> dsimp <;> omega

theorem daysBeforeMonth_le (y m : Nat) (hm2 : m ≤ 12) :
    daysBeforeMonth y m ≤ 335 := by
  have h1 := leapDay_le y
  unfold daysBeforeMonth
  interval_cases m <;> dsimp <;> omega

theorem daysBeforeMonth_12_ge (y : Nat) : 334 ≤ daysBeforeMonth y 12 := by
  unfold daysBeforeMonth
  dsimp
  omega

theorem daysBeforeMonth_1_eq (y : Nat) : daysBeforeMonth y 1 = 0 := rfl

theorem toOrdinal_succ_year_le (y m d : Nat) (hm2 : m ≤ 12) (hy : 1 ≤ y) :
    toOrdinal y m d + 300 ≤ toOrdinal (y + 1) m d := by
  have h1 := daysBeforeYear_succ_bounds y hy
  have h2 := daysBeforeMonth_diff y (y + 1) m hm2
  unfold toOrdinal
  omega

theorem toOrdinal_le_year_end (y m d : Nat) (hm2 : m ≤ 12) (hd : d ≤ 31) (hy : 1 ≤ y) :
    toOrdinal y m d + 1 ≤ toOrdinal (y + 1) 12 31 := by
  have h1 := daysBeforeYear_succ_bounds y hy
  have h2 := daysBeforeMonth_le y m hm2
  have h3 := daysBeforeMonth_12_ge (y + 1)
  unfold toOrdinal
  omega

theorem toOrdinal_jan1_le (z m d : Nat) (hd : 1 ≤ d) (hz : 1 ≤ z) :
    toOrdinal z 1 1 ≤ toOrdinal (z + 1) m d := by
  have h1 := daysBeforeYear_succ_bounds z hz
  have h0 := daysBeforeMonth_1_eq z
  unfold toOrdinal
  omega

theorem daysInMonth_le_31 (y m : Nat) : daysInMonth y m ≤ 31 := by
  unfold daysInMonth
  split_ifs <;> omega

theorem daysInMonth_feb_bounds (y : Nat) :
    28 ≤ daysInMonth y 2 ∧ daysInMonth y 2 ≤ 29 := by
  unfold daysInMonth
  split_ifs <;> omega

theorem daysInMonth_ne_feb (y y2 m : Nat) (h : m ≠ 2) :
    daysInMonth y m = daysInMonth y2 m := by
  unfold daysInMonth
  rw [if_neg h, if_neg h]

/-! Helper lemmas: timestamps and the holiday query. -/

theorem contains_eq_decide_mem (l : List Nat) (k : Nat) :
    l.contains k = decide (k ∈ l) :=
  List.elem_eq_mem k l

theorem PyDateTime.tod_lt_usPerDay (dt : PyDateTime) (hv : dt.Valid) :
    dt.tod < usPerDay := by
  obtain ⟨-, -, -, -, -, -, hh, hmin, hs, hus⟩ := hv
  unfold PyDateTime.tod usPerDay
  omega

theorem replaceYear_eq_some (dt : PyDateTime) (y : Nat) (hv : dt.Valid)
    (hfeb : ¬(dt.month = 2 ∧ dt.day = 29)) (h1 : 1 ≤ y) (h2 : y ≤ 9999) :
    replaceYear dt y = some { dt with year := y } := by
  obtain ⟨-, -, hm1, hm2, hd1, hd2, -⟩ := hv
  unfold replaceYear
  rw [if_pos]
  refine ⟨h1, h2, ?_⟩
  by_cases hm : dt.month = 2
  · have hb1 := daysInMonth_feb_bounds dt.year
    have hb2 := daysInMonth_feb_bounds y
    rw [hm] at hd2 ⊢
    have : dt.day ≠ 29 := fun hc => hfeb ⟨hm, hc⟩
    omega
  · rw [daysInMonth_ne_feb y dt.year dt.month hm]
    exact hd2

theorem calHolidays_dvd (s e : PyDateTime) (k : Nat)
    (h : k ∈ calHolidays s e) : usPerDay ∣ k := by
  unfold calHolidays at h
  obtain ⟨h1, -⟩ := List.mem_filter.mp h
  obtain ⟨d, -, rfl⟩ := List.mem_map.mp h1
  exact dvd_mul_left usPerDay d

theorem is_nerc_holiday_eq (dt : PyDateTime) (hv : dt.Valid)
    (hfeb : ¬(dt.month = 2 ∧ dt.day = 29)) (hy1 : 2 ≤ dt.year) (hy2 : dt.year ≤ 9998) :
    is_nerc_holiday dt =
      some ((calHolidays { dt with year := dt.year - 1 }
        { dt with year := dt.year + 1 }).contains dt.key) := by
  unfold is_nerc_holiday
  rw [replaceYear_eq_some dt (dt.year - 1) hv hfeb (by omega) (by omega),
      replaceYear_eq_some dt (dt.year + 1) hv hfeb (by omega) (by omega)]

/-- C3: for a well-formed datetime whose time of day is not midnight and
whose year shift is representable (date not February 29, year in
2..9998), is_nerc_holiday returns false, whatever the calendar date:
membership compares the full timestamp against midnight-resolved holiday
instants. -/
theorem c3_nonmidnight_not_holiday (dt : PyDateTime) (hv : dt.Valid)
    (ht : dt.tod ≠ 0) (hfeb : ¬(dt.month = 2 ∧ dt.day = 29))
    (hy1 : 2 ≤ dt.year) (hy2 : dt.year ≤ 9998) :
    is_nerc_holiday dt = some false := by
  rw [is_nerc_holiday_eq dt hv hfeb hy1 hy2]
  rw [contains_eq_decide_mem]
  rw [decide_eq_false]
  intro hmem
  obtain ⟨d, hdk⟩ := calHolidays_dvd _ _ _ hmem
  have htod := PyDateTime.tod_lt_usPerDay dt hv
  unfold PyDateTime.key at hdk
  unfold usPerDay at hdk htod
  omega

/-- C4 (amended): the classification queries the calendar between
date.replace(year = year - 1) and date.replace(year = year + 1), keeping
month, day and time of day, and tests membership of the full timestamp;
for that membership test the replace-year window is observationally
equivalent to the full-year bounds the specification names. -/
theorem c4_window_equivalence (dt : PyDateTime) (hv : dt.Valid)
    (hfeb : ¬(dt.month = 2 ∧ dt.day = 29)) (hy1 : 2 ≤ dt.year) (hy2 : dt.year ≤ 9998) :
    is_nerc_holiday dt = some (fullYearWindowCheck dt) := by
  rw [is_nerc_holiday_eq dt hv hfeb hy1 hy2]
  have htod := PyDateTime.tod_lt_usPerDay dt hv
  unfold usPerDay at htod
  have hd31 : dt.day ≤ 31 := le_trans hv.2.2.2.2.2.1 (daysInMonth_le_31 _ _)
  obtain ⟨-, -, hm1, hm2, hd1, -, -⟩ := hv
  have e1 := toOrdinal_succ_year_le (dt.year - 1) dt.month dt.day hm2 (by omega)
  rw [show dt.year - 1 + 1 = dt.year from by omega] at e1
  have e2 := toOrdinal_succ_year_le dt.year dt.month dt.day hm2 (by omega)
  have e3 := toOrdinal_jan1_le (dt.year - 1) dt.month dt.day hd1 (by omega)
  rw [show dt.year - 1 + 1 = dt.year from by omega] at e3
  have e4 := toOrdinal_le_year_end dt.year dt.month dt.day hm2 hd31 (by omega)
  have hp1 : ({ dt with year := dt.year - 1 } : PyDateTime).key ≤ dt.key := by
    show toOrdinal (dt.year - 1) dt.month dt.day * 86400000000 + dt.tod ≤
      toOrdinal dt.year dt.month dt.day * 86400000000 + dt.tod
    omega
  have hp2 : dt.key ≤ ({ dt with year := dt.year + 1 } : PyDateTime).key := by
    show toOrdinal dt.year dt.month dt.day * 86400000000 + dt.tod ≤
      toOrdinal (dt.year + 1) dt.month dt.day * 86400000000 + dt.tod
    omega
  have hp3 : (⟨dt.year - 1, 1, 1, 0, 0, 0, 0⟩ : PyDateTime).key ≤ dt.key := by
    show toOrdinal (dt.year - 1) 1 1 * 86400000000 + (((0 * 60 + 0) * 60 + 0) * 1000000 + 0) ≤
      toOrdinal dt.year dt.month dt.day * 86400000000 + dt.tod
    omega
  have hp4 : dt.key ≤ (⟨dt.year + 1, 12, 31, 0, 0, 0, 0⟩ : PyDateTime).key := by
    show toOrdinal dt.year dt.month dt.day * 86400000000 + dt.tod ≤
      toOrdinal (dt.year + 1) 12 31 * 86400000000 + (((0 * 60 + 0) * 60 + 0) * 1000000 + 0)
    omega
  refine congrArg some ?_
  unfold fullYearWindowCheck calHolidays
  dsimp only
  rw [contains_eq_decide_mem, contains_eq_decide_mem, decide_eq_decide]
  rw [List.mem_filter, List.mem_filter]
  simp only [Bool.and_eq_true, decide_eq_true_eq]
  constructor
  · rintro ⟨hm, -⟩
    exact ⟨hm, hp3, hp4⟩
  · rintro ⟨hm, -⟩
    exact ⟨hm, hp1, hp2⟩

/-- C5: Memorial Day resolves to the last Monday of May (a Monday in May
that no later Monday of May exceeds), Labor Day to the first Monday of
September, and Thanksgiving to the 4th Thursday of November: a Thursday
in November lying three full weeks past November 1, equal to the first
Thursday on or after November 1 plus 21 days. -/
theorem c5_floating_holiday_rules (y : Nat) :
    (pyWeekday (memorialDay y) = 0 ∧
      toOrdinal y 5 1 ≤ memorialDay y ∧ memorialDay y ≤ toOrdinal y 5 31 ∧
      (∀ n, n ≤ toOrdinal y 5 31 → pyWeekday n = 0 → n ≤ memorialDay y)) ∧
    (pyWeekday (laborDay y) = 0 ∧
      toOrdinal y 9 1 ≤ laborDay y ∧ laborDay y ≤ toOrdinal y 9 30 ∧
      (∀ n, toOrdinal y 9 1 ≤ n → pyWeekday n = 0 → laborDay y ≤ n)) ∧
    (pyWeekday (thanksgiving y) = 3 ∧
      toOrdinal y 11 1 ≤ thanksgiving y ∧ thanksgiving y ≤ toOrdinal y 11 30 ∧
      (thanksgiving y - toOrdinal y 11 1) / 7 = 3 ∧
      pyWeekday (rollForwardWeekday 3 (toOrdinal y 11 1)) = 3 ∧
      toOrdinal y 11 1 ≤ rollForwardWeekday 3 (toOrdinal y 11 1) ∧
      (∀ n, toOrdinal y 11 1 ≤ n → pyWeekday n = 3 →
        rollForwardWeekday 3 (toOrdinal y 11 1) ≤ n) ∧
      thanksgiving y = rollForwardWeekday 3 (toOrdinal y 11 1) + 21) := by
  refine ⟨⟨?_, ?_, ?_, ?_⟩, ⟨?_, ?_, ?_, ?_⟩, ⟨?_, ?_, ?_, ?_, ?_, ?_, ?_, ?_⟩⟩ <;>
    simp only [memorialDay, laborDay, thanksgiving, rollBackWeekday,
      rollForwardWeekday, pyWeekday, toOrdinal] <;>
    (intros; omega)

/-- C6: New Years Day, Independence Day and Christmas Day always resolve
to a weekday (Monday through Friday), and nearest_workday moves a
Saturday to the preceding day, a Sunday to the following day, and leaves
a weekday unchanged. -/
theorem c6_observed_fixed_holidays (y : Nat) :
    pyWeekday (newYearsDay y) ≤ 4 ∧ pyWeekday (independenceDay y) ≤ 4 ∧
    pyWeekday (christmasDay y) ≤ 4 ∧
    (∀ n : Nat, (pyWeekday n = 5 → nearest_workday n = n - 1) ∧
      (pyWeekday n = 6 → nearest_workday n = n + 1) ∧
      (pyWeekday n ≤ 4 → nearest_workday n = n)) := by
  refine ⟨?_, ?_, ?_, ?_⟩ <;>
    simp only [newYearsDay, independenceDay, christmasDay, nearest_workday,
      pyWeekday, toOrdinal] <;>
    (intros; split_ifs <;> omega)

/-! Helper lemmas: the annotator. -/

theorem mapCells_ok_length (f : Cell → Except PdError Cell) :
    ∀ (l l2 : List Cell), mapCells f l = Except.ok l2 → l2.length = l.length := by
  intro l
  induction l with
  | nil =>
    intro l2 h
    unfold mapCells at h
    injection h with h2
    rw [← h2]
  | cons c cs ih =>
    intro l2 h
    unfold mapCells at h
    cases hfc : f c with
    | error e => rw [hfc] at h; simp at h
    | ok c2 =>
      rw [hfc] at h
      cases hmc : mapCells f cs with
      | error e => rw [hmc] at h; simp at h
      | ok cs2 =>
        rw [hmc] at h
        simp only [] at h
        injection h with h2
        rw [← h2]
        simp [ih cs2 hmc]

theorem setCol_append (cs : List (String × List Cell)) (n : String) (v : List Cell)
    (h : ∀ p ∈ cs, Prod.fst p ≠ n) : setCol cs n v = cs ++ [(n, v)] := by
  induction cs with
  | nil => rfl
  | cons c cs ih =>
    unfold setCol
    rw [if_neg (h c (List.mem_cons_self c cs))]
    rw [ih (fun p hp => h p (List.mem_cons_of_mem c hp))]
    rfl

theorem lookupCol_none (cs : List (String × List Cell)) (n : String)
    (h : ∀ p ∈ cs, Prod.fst p ≠ n) : lookupCol cs n = none := by
  unfold lookupCol
  rw [List.find?_eq_none.mpr]
  · rfl
  · intro p hp
    simp [h p hp]

theorem lookupCol_mem (cs : List (String × List Cell)) (n : String) (v : List Cell)
    (h : lookupCol cs n = some v) : (n, v) ∈ cs := by
  unfold lookupCol at h
  cases hf : cs.find? (fun c => c.1 == n) with
  | none => rw [hf] at h; simp at h
  | some p =>
    rw [hf] at h
    have hmem := List.mem_of_find?_eq_some hf
    have hp := List.find?_some hf
    obtain ⟨a, b⟩ := p
    simp only [beq_iff_eq] at hp
    simp at h
    rw [← hp, ← h]
    exact hmem

/-- C7 (amended): when no column is already named Peak_OffPeak, a
successful annotation returns the input's columns unchanged and in order,
with exactly one new column Peak_OffPeak of the same row count appended
at the end. -/
theorem c7_annotate_appends_column (df : DataFrame) (c : String) (rt : Bool)
    (df2 : DataFrame) (N : Nat)
    (hwf : ∀ p ∈ df.cols, (Prod.snd p).length = N)
    (hfresh : ∀ p ∈ df.cols, Prod.fst p ≠ "Peak_OffPeak")
    (hok : apply_peak_offpeak df c rt = Except.ok df2) :
    ∃ nv : List Cell, df2.cols = df.cols ++ [("Peak_OffPeak", nv)] ∧
      nv.length = N := by
  unfold apply_peak_offpeak at hok
  cases hl : lookupCol df.cols c with
  | none => rw [hl] at hok; simp at hok
  | some vals =>
    rw [hl] at hok
    dsimp only [] at hok
    cases hm : mapCells (classifyCell rt) vals with
    | error e => rw [hm] at hok; simp at hok
    | ok nv =>
      rw [hm] at hok
      simp only [] at hok
      injection hok with h2
      refine ⟨nv, ?_, ?_⟩
      · rw [← h2]
        exact setCol_append df.cols _ nv hfresh
      · have hv : vals.length = N := hwf (c, vals) (lookupCol_mem _ _ _ hl)
        rw [mapCells_ok_length _ vals nv hm]
        exact hv

/-- C9: naming a column absent from the dataset makes apply_peak_offpeak
fail with the KeyError pandas raises for a missing column, and no
annotated dataset is produced. -/
theorem c9_missing_column_error (df : DataFrame) (c : String) (rt : Bool)
    (h : ∀ p ∈ df.cols, Prod.fst p ≠ c) :
    apply_peak_offpeak df c rt = Except.error PdError.keyError := by
  unfold apply_peak_offpeak
  rw [lookupCol_none df.cols c h]

/-- C10: on February 29 of a leap year both year shifts target a non-leap
year, datetime.replace fails, and is_nerc_holiday as well as is_5x16_peak
raise instead of returning a classification. -/
theorem c10_feb29_raises (dt : PyDateTime) (rt : Bool) (hm : dt.month = 2)
    (hd : dt.day = 29) (hy : 1 ≤ dt.year) (hleap : isLeapYear dt.year = true) :
    is_nerc_holiday dt = none ∧ is_5x16_peak dt rt = none := by
  have hnl : isLeapYear (dt.year - 1) = false := by
    unfold isLeapYear at hleap ⊢
    rw [decide_eq_true_eq] at hleap
    obtain ⟨hl1, -⟩ := hleap
    rw [decide_eq_false_iff_not]
    intro hcon
    obtain ⟨hc1, -⟩ := hcon
    omega
  have hrep : replaceYear dt (dt.year - 1) = none := by
    unfold replaceYear
    rw [if_neg]
    intro hcon
    obtain ⟨-, -, h3⟩ := hcon
    rw [hm, hd] at h3
    simp [daysInMonth, hnl] at h3
  have h1 : is_nerc_holiday dt = none := by
    unfold is_nerc_holiday
    rw [hrep]
  refine ⟨h1, ?_⟩
  unfold is_5x16_peak
  rw [h1]

/-- Witness for C10 at 2024-02-29T00:00. -/
theorem c10_feb29_raises_witness :
    is_nerc_holiday ⟨2024, 2, 29, 0, 0, 0, 0⟩ = none ∧
    is_5x16_peak ⟨2024, 2, 29, 0, 0, 0, 0⟩ false = none :=
  c10_feb29_raises ⟨2024, 2, 29, 0, 0, 0, 0⟩ false rfl rfl (by decide) (by decide)

/-- C1: code behavior at the claimed boundary. The date 2024-07-04 (a
Thursday) at midnight is recognized as a NERC holiday, but is_5x16_peak
at 2024-07-04T10:00 returns Peak, not the Off-Peak the claim states: the
holiday membership test compares the full 10:00 timestamp against
midnight holiday instants and fails, so the weekday and hour checks
decide. -/
theorem c1_holiday_boundary_code_result :
    is_nerc_holiday ⟨2024, 7, 4, 0, 0, 0, 0⟩ = some true ∧
    pyWeekday (toOrdinal 2024 7 4) = 3 ∧
    is_nerc_holiday ⟨2024, 7, 4, 10, 0, 0, 0⟩ = some false ∧
    is_5x16_peak ⟨2024, 7, 4, 10, 0, 0, 0⟩ false = some (PeakResult.b true) ∧
    is_5x16_peak ⟨2024, 7, 4, 10, 0, 0, 0⟩ true = some (PeakResult.s "Peak") := by
  refine ⟨?_, ?_, ?_, ?_, ?_⟩ <;> decide

/-- C2: code behavior against the claimed Off-Peak characterization.
2024-12-25 (Christmas, a Wednesday) resolves as a holiday at midnight,
yet noon of that day classifies as Peak in both renderings, against the
claimed date-is-holiday disjunct; the weekend disjunct and the renderings
behave as claimed (Saturday 2024-07-06 at 10:00 is Off-Peak). -/
theorem c2_offpeak_rule_code_result :
    is_nerc_holiday ⟨2024, 12, 25, 0, 0, 0, 0⟩ = some true ∧
    is_5x16_peak ⟨2024, 12, 25, 12, 0, 0, 0⟩ false = some (PeakResult.b true) ∧
    is_5x16_peak ⟨2024, 12, 25, 12, 0, 0, 0⟩ true = some (PeakResult.s "Peak") ∧
    is_5x16_peak ⟨2024, 7, 6, 10, 0, 0, 0⟩ false = some (PeakResult.b false) ∧
    is_5x16_peak ⟨2024, 7, 6, 10, 0, 0, 0⟩ true = some (PeakResult.s "Off-Peak") := by
  refine ⟨?_, ?_, ?_, ?_, ?_⟩ <;> decide

/-- C8: hour boundaries on the non-holiday Wednesday 2024-07-03: Peak at
08:00, 23:00 and 23:59; Off-Peak at 07:59 and 00:00. -/
theorem c8_peak_hour_boundaries :
    is_5x16_peak ⟨2024, 7, 3, 8, 0, 0, 0⟩ false = some (PeakResult.b true) ∧
    is_5x16_peak ⟨2024, 7, 3, 23, 0, 0, 0⟩ false = some (PeakResult.b true) ∧
    is_5x16_peak ⟨2024, 7, 3, 23, 59, 0, 0⟩ false = some (PeakResult.b true) ∧
    is_5x16_peak ⟨2024, 7, 3, 7, 59, 0, 0⟩ false = some (PeakResult.b false) ∧
    is_5x16_peak ⟨2024, 7, 3, 0, 0, 0, 0⟩ false = some (PeakResult.b false) := by
  refine ⟨?_, ?_, ?_, ?_, ?_⟩ <;> decide

/-- Counterexample for C3 as stated: at the non-midnight datetime
2024-02-29T12:00 is_nerc_holiday raises (none) rather than returning
false. -/
theorem c3_feb29_counterexample :
    is_nerc_holiday ⟨2024, 2, 29, 12, 0, 0, 0⟩ = none := by decide

/-- Witness for C3 at 2025-01-01T09:30, a holiday date off midnight. -/
theorem c3_nonmidnight_not_holiday_witness :
    is_nerc_holiday ⟨2025, 1, 1, 9, 30, 0, 0⟩ = some false :=
  c3_nonmidnight_not_holiday ⟨2025, 1, 1, 9, 30, 0, 0⟩ (by decide) (by decide)
    (by decide) (by decide) (by decide)

/-- Counterexample for C4 as stated: at 2024-07-04T10:00 the claimed
check (full-year bounds, membership of the date) answers true while the
code answers false, and the code's lower query bound is the timestamp
with only the year replaced, 2023-07-04T10:00, not January 1 of 2023. -/
theorem c4_claimed_range_counterexample :
    specDateHolidayCheck ⟨2024, 7, 4, 10, 0, 0, 0⟩ = true ∧
    is_nerc_holiday ⟨2024, 7, 4, 10, 0, 0, 0⟩ = some false ∧
    replaceYear ⟨2024, 7, 4, 10, 0, 0, 0⟩ 2023 = some ⟨2023, 7, 4, 10, 0, 0, 0⟩ ∧
    (⟨2023, 7, 4, 10, 0, 0, 0⟩ : PyDateTime) ≠ ⟨2023, 1, 1, 0, 0, 0, 0⟩ := by
  refine ⟨?_, ?_, ?_, ?_⟩ <;> decide

/-- Witness for C4 at 2024-07-04T00:00. -/
theorem c4_window_equivalence_witness :
    is_nerc_holiday ⟨2024, 7, 4, 0, 0, 0, 0⟩ =
      some (fullYearWindowCheck ⟨2024, 7, 4, 0, 0, 0, 0⟩) :=
  c4_window_equivalence ⟨2024, 7, 4, 0, 0, 0, 0⟩ (by decide) (by decide)
    (by decide) (by decide)

/-- Counterexample for C7 as stated: on an input that already has a
Peak_OffPeak column the annotation overwrites that column in place: the
output has no new column (same column count) and the pre-existing
Peak_OffPeak values are changed. -/
theorem c7_existing_column_counterexample :
    apply_peak_offpeak
        ⟨[("ts", [Cell.dt ⟨2024, 7, 3, 10, 0, 0, 0⟩]),
          ("Peak_OffPeak", [Cell.str "old"])]⟩ "ts" false =
      Except.ok
        ⟨[("ts", [Cell.dt ⟨2024, 7, 3, 10, 0, 0, 0⟩]),
          ("Peak_OffPeak", [Cell.boolean true])]⟩ ∧
    (⟨[("ts", [Cell.dt ⟨2024, 7, 3, 10, 0, 0, 0⟩]),
        ("Peak_OffPeak", [Cell.boolean true])]⟩ : DataFrame).cols.length =
      (⟨[("ts", [Cell.dt ⟨2024, 7, 3, 10, 0, 0, 0⟩]),
          ("Peak_OffPeak", [Cell.str "old"])]⟩ : DataFrame).cols.length ∧
    lookupCol [("ts", [Cell.dt ⟨2024, 7, 3, 10, 0, 0, 0⟩]),
        ("Peak_OffPeak", [Cell.boolean true])] "Peak_OffPeak" ≠
      some [Cell.str "old"] := by
  refine ⟨rfl, rfl, by decide⟩

/-- Witness for C7: one timestamp column, one row. -/
theorem c7_annotate_appends_column_witness :
    ∃ nv : List Cell,
      (⟨[("ts", [Cell.dt ⟨2024, 7, 3, 10, 0, 0, 0⟩]),
          ("Peak_OffPeak", [Cell.boolean true])]⟩ : DataFrame).cols =
        (⟨[("ts", [Cell.dt ⟨2024, 7, 3, 10, 0, 0, 0⟩])]⟩ : DataFrame).cols ++
          [("Peak_OffPeak", nv)] ∧ nv.length = 1 :=
  c7_annotate_appends_column ⟨[("ts", [Cell.dt ⟨2024, 7, 3, 10, 0, 0, 0⟩])]⟩
    "ts" false
    ⟨[("ts", [Cell.dt ⟨2024, 7, 3, 10, 0, 0, 0⟩]),
      ("Peak_OffPeak", [Cell.boolean true])]⟩ 1
    (by decide) (by decide) (by rfl)

/-- Witness for C9: a one-column dataset without the asked-for column. -/
theorem c9_missing_column_error_witness :
    apply_peak_offpeak ⟨[("load", [Cell.int 7])]⟩ "ts" false =
      Except.error PdError.keyError :=
  c9_missing_column_error ⟨[("load", [Cell.int 7])]⟩ "ts" false (by decide)
